import Mathlib

/-!
Verification of the data-normalization and metrics pipeline of the TikTok
OFM analyzer (`src/app.py`): the field resolver `get_value`, the
per-record normalizer of `parse_apify_data`, and the metrics engine
`calculate_metrics`.

The raw Apify records are weakly typed Python values; we embed them as a
JSON-like inductive type `JVal` (rationals stand for Python's int/float
numbers; arrays are omitted since no operation the pipeline performs on a
record value distinguishes them from other non-mapping values in the
claims' scope).  Fallible Python operations (`in` on a non-container,
attribute access `.get` on a non-dict) are embedded in `Except String`.
-/

namespace OFM

/-- A Python/JSON value as it appears in an Apify record. -/
inductive JVal where
  | jnull : JVal
  | jbool : Bool → JVal
  | jnum : ℚ → JVal
  | jstr : String → JVal
  | jobj : List (String × JVal) → JVal

/-- Is this value a Python dict? (`isinstance(obj, dict)`) -/
def JVal.isObj : JVal → Bool
  | .jobj _ => true
  | _ => false

/-- Is this value Python's `None`? -/
def JVal.isNull : JVal → Bool
  | .jnull => true
  | _ => false

/-- Dict lookup: first binding of the key (Python dicts have unique keys). -/
def lookupField (fs : List (String × JVal)) (k : String) : Option JVal :=
  match fs with
  | [] => none
  | (k', v) :: rest => if k' = k then some v else lookupField rest k

/-- Membership `key in dict` for dict values. -/
def containsKey (fs : List (String × JVal)) (k : String) : Bool :=
  (lookupField fs k).isSome

/-- Python `k in v`.  Exact key membership on dicts, substring test on
strings, `TypeError` on values that are not containers. -/
def pyContains (v : JVal) (k : String) : Except String Bool :=
  match v with
  | .jobj fs => .ok (containsKey fs k)
  | .jstr s => .ok (k = "" || (s.splitOn k).length > 1)
  | _ => .error "TypeError: argument is not iterable"

/-- Python `v.get(k, d)`: only dicts have `.get`; anything else raises
`AttributeError`. -/
def pyGet2 (v : JVal) (k : String) (d : JVal) : Except String JVal :=
  match v with
  | .jobj fs =>
    .ok (match lookupField fs k with
         | some x => x
         | none => d)
  | _ => .error "AttributeError: object has no attribute get"

/-- Python `v.get(k)` (default `None`). -/
def pyGet1 (v : JVal) (k : String) : Except String JVal :=
  pyGet2 v k .jnull

/-- Python truthiness, used by `if video_info["createTime"]:`. -/
def truthy : JVal → Bool
  | .jnull => false
  | .jbool b => b
  | .jnum q => q ≠ 0
  | .jstr s => s ≠ ""
  | .jobj fs => !fs.isEmpty

/-- The field resolver `get_value(obj, keys, default)` of `src/app.py`
(lines 180-186): iterate the candidate keys in order; on the first key
present in the dict, return its value unless that value is `None`, in
which case return the default immediately; if the container is not a dict
or no key is present, return the default.  Total: it never raises. -/
def get_value (obj : JVal) (keys : List String) (default : JVal) : JVal :=
  match keys with
  | [] => default
  | k :: rest =>
    match obj with
    | .jobj fs =>
      (match lookupField fs k with
       | some v => if v.isNull then default else v
       | none => get_value obj rest default)
    | _ => default

/-- Models `datetime.fromtimestamp(t).strftime("%Y-%m-%d %H:%M")`.  No
claim inspects the rendered text (only whether the display date is
empty), so the calendar rendering is abstracted as a decimal rendering of
the epoch value; it is total, so the bare `except` fallback `str(ct)` of
the source is unreachable in the model. -/
def formatTimestamp (q : ℚ) : String := toString q

/-- Lines 204-214: derive the display date from the resolved create time.
Empty when the create time is falsy; the formatted timestamp when it is a
number above 1_000_000_000 (Python's `True` counts as the int 1, hence
never exceeds the threshold); the string itself when it is a string. -/
def mkCreateDate (ct : JVal) : String :=
  if truthy ct then
    match ct with
    | .jnum q => if (1000000000 : ℚ) < q then formatTimestamp q else ""
    | .jstr s => s
    | _ => ""
  else ""

/-- The per-record dictionary built by `parse_apify_data` (lines
188-202): field values are whatever `get_value` resolved, hence still
weakly typed. -/
structure RawVideoInfo where
  id : JVal
  text : JVal
  createTime : JVal
  createDate : String
  duration : JVal
  playCount : JVal
  diggCount : JVal
  shareCount : JVal
  commentCount : JVal
  collectCount : JVal
  authorUsername : JVal
  authorNickname : JVal
  authorFollowers : JVal

/-- Shape classification of a raw record (lines 160-177): choose the
`video_data`, `stats` and `author_data` sources.  Raises exactly where
Python would (`in` on a non-container, `.get` on a non-dict). -/
def classify (item : JVal) : Except String (JVal × JVal × JVal) := do
  let fmt1 ← do
    let b ← pyContains item "playCount"
    if b then pure true else pyContains item "stats"
  if fmt1 then do
    let stats ← pyGet2 item "stats" item
    let author ← pyGet2 item "author" (.jobj [])
    pure (item, stats, author)
  else do
    let hasVideo ← pyContains item "video"
    if hasVideo then do
      let vd ← pyGet2 item "video" (.jobj [])
      let stats ← pyGet2 vd "stats" (.jobj [])
      let author ← pyGet2 item "author" (.jobj [])
      pure (vd, stats, author)
    else do
      let aStats ← pyGet2 item "authorStats" (.jobj [])
      let author ← pyGet2 item "author" aStats
      pure (item, item, author)

/-- Normalization of one raw record (lines 157-216 of `parse_apify_data`):
classify the shape, then resolve every field of the `video_info` dict.
`duration` consults `video_data.get("video")` (line 193) and
`authorFollowers` consults `author_data.get("stats", {})` (line 201);
both `.get` calls raise when their receiver is not a dict. -/
def normalizeItem (item : JVal) : Except String RawVideoInfo := do
  let (video_data, stats, author_data) ← classify item
  let vsub ← pyGet1 video_data "video"
  let astats ← pyGet2 author_data "stats" (.jobj [])
  let ct := get_value video_data ["createTime", "create_time", "createDate"] (.jnum 0)
  pure {
    id := get_value video_data ["id", "videoId", "awemeId"] (.jstr "")
    text := get_value video_data ["desc", "description", "text", "caption"] (.jstr "")
    createTime := ct
    createDate := mkCreateDate ct
    duration := if vsub.isObj then get_value vsub ["duration"] (.jnum 0) else .jnum 0
    playCount := get_value stats ["playCount", "play_count", "viewCount", "views", "statsV2.playCount"] (.jnum 0)
    diggCount := get_value stats ["diggCount", "digg_count", "likeCount", "likes", "statsV2.diggCount"] (.jnum 0)
    shareCount := get_value stats ["shareCount", "share_count", "shares", "statsV2.shareCount"] (.jnum 0)
    commentCount := get_value stats ["commentCount", "comment_count", "comments", "statsV2.commentCount"] (.jnum 0)
    collectCount := get_value stats ["collectCount", "collect_count", "collects", "statsV2.collectCount"] (.jnum 0)
    authorUsername := get_value author_data ["uniqueId", "unique_id", "username", "nickname"] (.jstr "")
    authorNickname := get_value author_data ["nickname", "nickName", "displayName"] (.jstr "")
    authorFollowers := get_value astats ["followerCount", "follower_count", "followers"] (.jnum 0)
  }

/-!
The table builder's final step, `df.sort_values("createTime",
ascending=False)` at line 227, is not embedded: it runs with pandas'
default `kind='quicksort'`, and numpy's quicksort argsort does not
specify the relative order of equal keys for arrays larger than its
insertion-sort regime, while the app fetches batches of 30 records.  The
output's tie order is therefore fixed only by numpy's introsort
internals, which are outside this repository, and no faithful executable
model of it can be given here.
-/

/-!
### The typed table and the metrics engine

`calculate_metrics` (lines 231-283) operates on the parsed DataFrame.
Its arithmetic (`mean`, `nlargest`, comparisons) presupposes numeric
columns — this is the spec's `VideoTable` of well-typed `VideoRecord`s —
so the metrics engine is embedded over rows with rational count fields.
-/

/-- A well-typed row of the video table (one `VideoRecord`). -/
structure VideoRow where
  id : String
  text : String
  createTime : ℚ
  createDate : String
  duration : ℚ
  playCount : ℚ
  diggCount : ℚ
  shareCount : ℚ
  commentCount : ℚ
  collectCount : ℚ
  authorUsername : String
  authorNickname : String
  authorFollowers : ℚ
deriving DecidableEq

/-- The DataFrame as `calculate_metrics` sees and mutates it: the base
rows plus the three derived columns, absent before the call (the parser
creates only the thirteen base columns) and added in place by lines
249-268. -/
structure DFrame where
  rows : List VideoRow
  viralRatioCol : Option (List ℚ)
  engagementRateCol : Option (List ℚ)
  conversionPotentialCol : Option (List ℚ)
deriving DecidableEq

/-- Line 250: `shareCount / diggCount if diggCount > 0 else 0`. -/
def viralRatio (r : VideoRow) : ℚ :=
  if 0 < r.diggCount then r.shareCount / r.diggCount else 0

/-- Lines 257-258: `(diggCount + shareCount + commentCount) / playCount * 100
if playCount > 0 else 0`. -/
def engagementRate (r : VideoRow) : ℚ :=
  if 0 < r.playCount then (r.diggCount + r.shareCount + r.commentCount) / r.playCount * 100
  else 0

/-- Lines 265-266: `(shareCount * 2 + commentCount) / playCount * 100
if playCount > 0 else 0`. -/
def conversionPotential (r : VideoRow) : ℚ :=
  if 0 < r.playCount then (r.shareCount * 2 + r.commentCount) / r.playCount * 100
  else 0

/-- Arithmetic mean of a column (`Series.mean`); only ever applied to
nonempty columns in the guarded source paths. -/
def mean (l : List ℚ) : ℚ := l.sum / (l.length : ℚ)

/-- Descending order on rows by play count. -/
def playDesc (a b : VideoRow) : Prop := b.playCount ≤ a.playCount

/-- Ascending order on rows by play count. -/
def playAsc (a b : VideoRow) : Prop := a.playCount ≤ b.playCount

instance : DecidableRel playDesc := fun a b => inferInstanceAs (Decidable (b.playCount ≤ a.playCount))

instance : DecidableRel playAsc := fun a b => inferInstanceAs (Decidable (a.playCount ≤ b.playCount))

instance : IsTotal VideoRow playDesc := ⟨fun a b => (le_total b.playCount a.playCount).symm.symm⟩

instance : IsTotal VideoRow playAsc := ⟨fun a b => le_total a.playCount b.playCount⟩

instance : IsTrans VideoRow playDesc := ⟨fun _ _ _ h1 h2 => le_trans h2 h1⟩

instance : IsTrans VideoRow playAsc := ⟨fun _ _ _ h1 h2 => le_trans h1 h2⟩

/-- Models `df.nlargest(3, "playCount")` with the default `keep='first'` (line
272): pandas negates the column and takes a stable mergesort argsort of
the candidate set, so the result is the first three rows of the stable
descending sort — largest play counts first, ties kept in table order. -/
def nlargest3 (rows : List VideoRow) : List VideoRow :=
  (List.insertionSort playDesc rows).take 3

/-- Models `df.nsmallest(3, "playCount")` with `keep='first'` (line 273): the
first three rows of the stable ascending sort. -/
def nsmallest3 (rows : List VideoRow) : List VideoRow :=
  (List.insertionSort playAsc rows).take 3

/-- Models `df.head(10)["playCount"].mean()` (line 277). -/
def recent10mean (rows : List VideoRow) : ℚ :=
  mean ((rows.take 10).map (·.playCount))

/-- Models `df.tail(10)["playCount"].mean()` (line 278). -/
def older10mean (rows : List VideoRow) : ℚ :=
  mean ((rows.drop (rows.length - 10)).map (·.playCount))

/-- Lines 276-281: trend of the 10 most recent rows against the 10
oldest, zero below 20 rows or when the older mean is not positive. -/
def trendOf (rows : List VideoRow) : ℚ :=
  if 20 ≤ rows.length then
    if 0 < older10mean rows then
      (recent10mean rows - older10mean rows) / older10mean rows * 100
    else 0
  else 0

/-- The metrics dictionary built for a nonempty table (lines 238-281).
In the source the top3/flop3 records additionally carry the three derived
per-row values; those are pure functions of the row (`viralRatio` etc.),
so the entries are kept as the base rows. -/
structure Metrics where
  total_videos : ℕ
  avg_views : ℚ
  avg_likes : ℚ
  avg_shares : ℚ
  avg_comments : ℚ
  total_views : ℚ
  total_engagement : ℚ
  avg_viral_ratio : ℚ
  avg_engagement_rate : ℚ
  avg_conversion_potential : ℚ
  top3 : List VideoRow
  flop3 : List VideoRow
  trend : ℚ
deriving DecidableEq

/-- The metrics engine `calculate_metrics` (lines 231-283), in explicit
state-passing form: it returns both the metrics dictionary and the
DataFrame it received, because lines 249-268 assign the three derived
columns onto that DataFrame in place.  An empty table returns the empty
dict `{}` (modelled as `none`) before any column is added. -/
def calculate_metrics (df : DFrame) : DFrame × Option Metrics :=
  if df.rows.isEmpty then (df, none)
  else
    let rows := df.rows
    let df' : DFrame :=
      { rows := rows
        viralRatioCol := some (rows.map viralRatio)
        engagementRateCol := some (rows.map engagementRate)
        conversionPotentialCol := some (rows.map conversionPotential) }
    (df',
     some {
       total_videos := rows.length
       avg_views := mean (rows.map (·.playCount))
       avg_likes := mean (rows.map (·.diggCount))
       avg_shares := mean (rows.map (·.shareCount))
       avg_comments := mean (rows.map (·.commentCount))
       total_views := (rows.map (·.playCount)).sum
       total_engagement := (rows.map (fun r => r.diggCount + r.shareCount + r.commentCount)).sum
       avg_viral_ratio := mean (rows.map viralRatio)
       avg_engagement_rate := mean (rows.map engagementRate)
       avg_conversion_potential := mean (rows.map conversionPotential)
       top3 := nlargest3 rows
       flop3 := nsmallest3 rows
       trend := trendOf rows })

/-!
Downstream consumers (`get_gemini_analysis`, the dashboard) read every
metric with `metrics.get(key, default)`; the getters below mirror those
reads (default 0 for scalars, `[]` for the two lists).
-/

def getTotalVideos : Option Metrics → ℕ
  | none => 0
  | some m => m.total_videos

def getAvgViews : Option Metrics → ℚ
  | none => 0
  | some m => m.avg_views

def getAvgLikes : Option Metrics → ℚ
  | none => 0
  | some m => m.avg_likes

def getAvgShares : Option Metrics → ℚ
  | none => 0
  | some m => m.avg_shares

def getAvgComments : Option Metrics → ℚ
  | none => 0
  | some m => m.avg_comments

def getTotalViews : Option Metrics → ℚ
  | none => 0
  | some m => m.total_views

def getTotalEngagement : Option Metrics → ℚ
  | none => 0
  | some m => m.total_engagement

def getAvgViralRatio : Option Metrics → ℚ
  | none => 0
  | some m => m.avg_viral_ratio

def getAvgEngagementRate : Option Metrics → ℚ
  | none => 0
  | some m => m.avg_engagement_rate

def getAvgConversionPotential : Option Metrics → ℚ
  | none => 0
  | some m => m.avg_conversion_potential

def getTop3 : Option Metrics → List VideoRow
  | none => []
  | some m => m.top3

def getFlop3 : Option Metrics → List VideoRow
  | none => []
  | some m => m.flop3

def getTrend : Option Metrics → ℚ
  | none => 0
  | some m => m.trend

/-!
### Helper definitions and lemmas
-/

/-- Python `dict.get(k, d)` on a value known to be a dict. -/
def dget (fs : List (String × JVal)) (k : String) (d : JVal) : JVal :=
  match lookupField fs k with
  | some v => v
  | none => d

/-- Does the value stored under `k`, when present, pass the structural
check `isinstance(·, dict)`?  (Absent keys pass vacuously.) -/
def subObjOk (fs : List (String × JVal)) (k : String) : Bool :=
  (lookupField fs k).all JVal.isObj

/-- The record shaped by `classify` once the three sources are fixed:
this is the pure remainder of `normalizeItem` when `video_data = .jobj vf`
and `author_data = .jobj af`. -/
def mkInfo (vf : List (String × JVal)) (st : JVal) (af : List (String × JVal)) : RawVideoInfo :=
  let vsub := dget vf "video" .jnull
  let astats := dget af "stats" (.jobj [])
  let ct := get_value (.jobj vf) ["createTime", "create_time", "createDate"] (.jnum 0)
  { id := get_value (.jobj vf) ["id", "videoId", "awemeId"] (.jstr "")
    text := get_value (.jobj vf) ["desc", "description", "text", "caption"] (.jstr "")
    createTime := ct
    createDate := mkCreateDate ct
    duration := if vsub.isObj then get_value vsub ["duration"] (.jnum 0) else .jnum 0
    playCount := get_value st ["playCount", "play_count", "viewCount", "views", "statsV2.playCount"] (.jnum 0)
    diggCount := get_value st ["diggCount", "digg_count", "likeCount", "likes", "statsV2.diggCount"] (.jnum 0)
    shareCount := get_value st ["shareCount", "share_count", "shares", "statsV2.shareCount"] (.jnum 0)
    commentCount := get_value st ["commentCount", "comment_count", "comments", "statsV2.commentCount"] (.jnum 0)
    collectCount := get_value st ["collectCount", "collect_count", "collects", "statsV2.collectCount"] (.jnum 0)
    authorUsername := get_value (.jobj af) ["uniqueId", "unique_id", "username", "nickname"] (.jstr "")
    authorNickname := get_value (.jobj af) ["nickname", "nickName", "displayName"] (.jstr "")
    authorFollowers := get_value astats ["followerCount", "follower_count", "followers"] (.jnum 0) }

/-- The record produced for a raw record in which no recognized key is
present: every numeric field 0, every string field empty. -/
def defaultInfo : RawVideoInfo :=
  { id := .jstr "", text := .jstr "", createTime := .jnum 0, createDate := "",
    duration := .jnum 0, playCount := .jnum 0, diggCount := .jnum 0, shareCount := .jnum 0,
    commentCount := .jnum 0, collectCount := .jnum 0, authorUsername := .jstr "",
    authorNickname := .jstr "", authorFollowers := .jnum 0 }

/-- Every key name the normalizer ever looks up on the record itself. -/
def recognizedKeys : List String :=
  ["playCount", "stats", "video", "author", "authorStats",
   "id", "videoId", "awemeId",
   "desc", "description", "text", "caption",
   "createTime", "create_time", "createDate",
   "play_count", "viewCount", "views", "statsV2.playCount",
   "diggCount", "digg_count", "likeCount", "likes", "statsV2.diggCount",
   "shareCount", "share_count", "shares", "statsV2.shareCount",
   "commentCount", "comment_count", "comments", "statsV2.commentCount",
   "collectCount", "collect_count", "collects", "statsV2.collectCount",
   "uniqueId", "unique_id", "username", "nickname",
   "nickName", "displayName", "duration"]

/-- The candidate key lists of the five count fields, flattened. -/
def countKeys : List String :=
  ["playCount", "play_count", "viewCount", "views", "statsV2.playCount",
   "diggCount", "digg_count", "likeCount", "likes", "statsV2.diggCount",
   "shareCount", "share_count", "shares", "statsV2.shareCount",
   "commentCount", "comment_count", "comments", "statsV2.commentCount",
   "collectCount", "collect_count", "collects", "statsV2.collectCount"]

theorem lookup_eq_none_of_containsKey_false {fs : List (String × JVal)} {k : String}
    (h : containsKey fs k = false) : lookupField fs k = none := by
  unfold containsKey at h
  cases hl : lookupField fs k with
  | none => rfl
  | some v => rw [hl] at h; simp at h

theorem get_value_not_obj {obj : JVal} (h : obj.isObj = false) :
    ∀ (keys : List String) (d : JVal), get_value obj keys d = d := by
  intro keys d
  cases keys with
  | nil => rfl
  | cons k rest =>
    cases obj with
    | jobj fs => simp [JVal.isObj] at h
    | jnull => rfl
    | jbool b => rfl
    | jnum q => rfl
    | jstr s => rfl

theorem get_value_none {fs : List (String × JVal)} :
    ∀ (keys : List String) (d : JVal), (∀ k ∈ keys, lookupField fs k = none) →
      get_value (.jobj fs) keys d = d := by
  intro keys
  induction keys with
  | nil => intro d _; rfl
  | cons k rest ih =>
    intro d hs
    have hk : lookupField fs k = none := hs k (by simp)
    rw [get_value, hk]
    exact ih d fun k' hk' => hs k' (by simp [hk'])

theorem pyGet2_jobj (fs : List (String × JVal)) (k : String) (d : JVal) :
    pyGet2 (.jobj fs) k d = .ok (dget fs k d) := rfl

theorem classify_play {fs : List (String × JVal)}
    (hp : containsKey fs "playCount" = true) :
    classify (.jobj fs) = .ok (.jobj fs, dget fs "stats" (.jobj fs), dget fs "author" (.jobj [])) := by
  simp [classify, pyContains, hp, pyGet2_jobj, Bind.bind, Except.bind, pure, Except.pure]

theorem classify_stats {fs : List (String × JVal)}
    (hp : containsKey fs "playCount" = false) (hs : containsKey fs "stats" = true) :
    classify (.jobj fs) = .ok (.jobj fs, dget fs "stats" (.jobj fs), dget fs "author" (.jobj [])) := by
  simp [classify, pyContains, hp, hs, pyGet2_jobj, Bind.bind, Except.bind, pure, Except.pure]

theorem classify_video {fs vf : List (String × JVal)}
    (hp : containsKey fs "playCount" = false) (hs : containsKey fs "stats" = false)
    (hv : lookupField fs "video" = some (.jobj vf)) :
    classify (.jobj fs) = .ok (.jobj vf, dget vf "stats" (.jobj []), dget fs "author" (.jobj [])) := by
  have hcv : containsKey fs "video" = true := by unfold containsKey; rw [hv]; rfl
  simp [classify, pyContains, hp, hs, hcv, pyGet2_jobj, dget, hv, Bind.bind, Except.bind, pure,
    Except.pure]

theorem classify_fallback {fs : List (String × JVal)}
    (hp : containsKey fs "playCount" = false) (hs : containsKey fs "stats" = false)
    (hv : containsKey fs "video" = false) :
    classify (.jobj fs) =
      .ok (.jobj fs, .jobj fs, dget fs "author" (dget fs "authorStats" (.jobj []))) := by
  simp [classify, pyContains, hp, hs, hv, pyGet2_jobj, Bind.bind, Except.bind, pure, Except.pure]

theorem normalizeItem_eq {item : JVal} {vf af : List (String × JVal)} {st : JVal}
    (h : classify item = .ok (.jobj vf, st, .jobj af)) :
    normalizeItem item = .ok (mkInfo vf st af) := by
  simp [normalizeItem, h, pyGet1, pyGet2_jobj, mkInfo, Bind.bind, Except.bind, pure, Except.pure,
    Functor.map, Except.map]

theorem isObj_exists {v : JVal} (h : v.isObj = true) : ∃ fs, v = .jobj fs := by
  cases v with
  | jobj fs => exact ⟨fs, rfl⟩
  | jnull => simp [JVal.isObj] at h
  | jbool b => simp [JVal.isObj] at h
  | jnum q => simp [JVal.isObj] at h
  | jstr s => simp [JVal.isObj] at h

theorem dget_none {fs : List (String × JVal)} {k : String} {d : JVal}
    (h : lookupField fs k = none) : dget fs k d = d := by
  unfold dget; rw [h]

theorem dget_some {fs : List (String × JVal)} {k : String} {d v : JVal}
    (h : lookupField fs k = some v) : dget fs k d = v := by
  unfold dget; rw [h]

theorem containsKey_of_lookup {fs : List (String × JVal)} {k : String} {v : JVal}
    (h : lookupField fs k = some v) : containsKey fs k = true := by
  unfold containsKey; rw [h]; rfl

/-- A `.get(k, d)` result passes `isinstance(·, dict)` whenever the value
stored under `k` (if any) is a dict, and the default is a dict. -/
theorem dget_isObj {fs : List (String × JVal)} {k : String} {d : JVal}
    (h : subObjOk fs k = true) (hd : d.isObj = true) : (dget fs k d).isObj = true := by
  unfold subObjOk at h
  unfold dget
  cases hl : lookupField fs k with
  | none => exact hd
  | some a => rw [hl] at h; simpa [Option.all] using h

/-- Stability of `orderedInsert`: inserting an element whose predicate
class sorts no later than any other member of that class prepends it to
the filtered list. -/
theorem filter_orderedInsert {α : Type*} (r : α → α → Prop) [DecidableRel r] (p : α → Bool)
    (hp : ∀ x y, p x = true → p y = true → r x y) (a : α) :
    ∀ l : List α, (List.orderedInsert r a l).filter p =
      if p a then a :: l.filter p else l.filter p := by
  intro l
  induction l with
  | nil => simp [List.orderedInsert, List.filter_cons]
  | cons b l ih =>
    by_cases hab : r a b
    · simp only [List.orderedInsert, if_pos hab]
      rw [List.filter_cons, List.filter_cons]
    · simp only [List.orderedInsert, if_neg hab]
      rw [List.filter_cons, ih]
      cases hpa : p a with
      | true =>
        have hpb : p b = false := by
          cases hpb : p b with
          | true => exact absurd (hp a b hpa hpb) hab
          | false => rfl
        simp [hpb, List.filter_cons]
      | false =>
        simp [List.filter_cons]

/-- Stability of insertion sort, expressed as preservation of each
equal-key class: sorting commutes with filtering by a class on which the
order relation always holds. -/
theorem filter_insertionSort {α : Type*} (r : α → α → Prop) [DecidableRel r] (p : α → Bool)
    (hp : ∀ x y, p x = true → p y = true → r x y) :
    ∀ l : List α, (List.insertionSort r l).filter p = l.filter p := by
  intro l
  induction l with
  | nil => rfl
  | cons b l ih =>
    simp only [List.insertionSort]
    rw [filter_orderedInsert r p hp b, ih, List.filter_cons]

/-- A sorted list relates all of its first `n` elements to all later
elements. -/
theorem sorted_take_drop {α : Type*} {r : α → α → Prop} {s : List α}
    (h : List.Sorted r s) (n : ℕ) :
    ∀ x ∈ s.take n, ∀ y ∈ s.drop n, r x y := by
  have hps : (s.take n ++ s.drop n).Pairwise r := by
    rw [List.take_append_drop]; exact h
  exact (List.pairwise_append.mp hps).2.2

/-- A row whose play count is `p` and whose other fields are defaults. -/
def mkRow (p : ℚ) : VideoRow :=
  { id := "", text := "", createTime := 0, createDate := "", duration := 0,
    playCount := p, diggCount := 0, shareCount := 0, commentCount := 0,
    collectCount := 0, authorUsername := "", authorNickname := "", authorFollowers := 0 }

/-- Resolution of the first candidate key that is present in a dict
(regardless of its value), as an ordinary association-list scan. -/
def firstHit (fs : List (String × JVal)) : List String → Option JVal
  | [] => none
  | k :: rest =>
    match lookupField fs k with
    | some v => some v
    | none => firstHit fs rest

/-!
### Claim theorems
-/

theorem containsKey_false_of_ne_true {fs : List (String × JVal)} {k : String}
    (h : ¬containsKey fs k = true) : containsKey fs k = false := by
  cases hc : containsKey fs k with
  | false => rfl
  | true => exact absurd hc h

/-- Under well-formed sub-objects, normalization of a mapping record
always succeeds. -/
theorem normalizeItem_ok_of_subObjOk {fields : List (String × JVal)}
    (hA : subObjOk fields "author" = true)
    (hAS : subObjOk fields "authorStats" = true)
    (hV : subObjOk fields "video" = true) :
    ∃ r, normalizeItem (.jobj fields) = .ok r := by
  by_cases hp : containsKey fields "playCount" = true
  · obtain ⟨af, haf⟩ := isObj_exists (dget_isObj hA (d := .jobj []) rfl)
    exact ⟨_, normalizeItem_eq (by rw [classify_play hp, haf])⟩
  · have hp' := containsKey_false_of_ne_true hp
    by_cases hs : containsKey fields "stats" = true
    · obtain ⟨af, haf⟩ := isObj_exists (dget_isObj hA (d := .jobj []) rfl)
      exact ⟨_, normalizeItem_eq (by rw [classify_stats hp' hs, haf])⟩
    · have hs' := containsKey_false_of_ne_true hs
      by_cases hv : containsKey fields "video" = true
      · obtain ⟨v, hlv⟩ := Option.isSome_iff_exists.mp hv
        have hvo : v.isObj = true := by
          unfold subObjOk at hV; rw [hlv] at hV; simpa [Option.all] using hV
        obtain ⟨vf, rfl⟩ := isObj_exists hvo
        obtain ⟨af, haf⟩ := isObj_exists (dget_isObj hA (d := .jobj []) rfl)
        exact ⟨_, normalizeItem_eq (by rw [classify_video hp' hs' hlv, haf])⟩
      · have hv' := containsKey_false_of_ne_true hv
        have had : (dget fields "author" (dget fields "authorStats" (.jobj []))).isObj = true :=
          dget_isObj hA (dget_isObj hAS rfl)
        obtain ⟨af, haf⟩ := isObj_exists had
        exact ⟨_, normalizeItem_eq (by rw [classify_fallback hp' hs' hv', haf])⟩

/-- A record lacking every recognized key normalizes to the all-defaults
record. -/
theorem normalizeItem_defaults {fields : List (String × JVal)}
    (hall : recognizedKeys.all (fun k => !containsKey fields k) = true) :
    normalizeItem (.jobj fields) = .ok defaultInfo := by
  have hk : ∀ k ∈ recognizedKeys, containsKey fields k = false := by
    intro k hkmem
    have := List.all_eq_true.mp hall k hkmem
    simpa using this
  have hnone : ∀ k ∈ recognizedKeys, lookupField fields k = none :=
    fun k hkm => lookup_eq_none_of_containsKey_false (hk k hkm)
  have hgv : ∀ (keys : List String) (d : JVal), (∀ k ∈ keys, k ∈ recognizedKeys) →
      get_value (.jobj fields) keys d = d :=
    fun keys d hsub => get_value_none keys d (fun k hkm => hnone k (hsub k hkm))
  have hcf : classify (.jobj fields) = .ok (.jobj fields, .jobj fields, .jobj []) := by
    rw [classify_fallback (hk "playCount" (by decide)) (hk "stats" (by decide))
      (hk "video" (by decide))]
    rw [dget_none (hnone "authorStats" (by decide)), dget_none (hnone "author" (by decide))]
  rw [normalizeItem_eq hcf]
  have hmk : mkInfo fields (.jobj fields) [] = defaultInfo := by
    unfold mkInfo defaultInfo
    rw [hgv ["createTime", "create_time", "createDate"] (.jnum 0) (by decide)]
    rw [hgv ["id", "videoId", "awemeId"] (.jstr "") (by decide)]
    rw [hgv ["desc", "description", "text", "caption"] (.jstr "") (by decide)]
    rw [hgv ["playCount", "play_count", "viewCount", "views", "statsV2.playCount"] (.jnum 0) (by decide)]
    rw [hgv ["diggCount", "digg_count", "likeCount", "likes", "statsV2.diggCount"] (.jnum 0) (by decide)]
    rw [hgv ["shareCount", "share_count", "shares", "statsV2.shareCount"] (.jnum 0) (by decide)]
    rw [hgv ["commentCount", "comment_count", "comments", "statsV2.commentCount"] (.jnum 0) (by decide)]
    rw [hgv ["collectCount", "collect_count", "collects", "statsV2.collectCount"] (.jnum 0) (by decide)]
    rw [dget_none (hnone "video" (by decide))]
    rfl
  rw [hmk]

/-- A present but non-dict `stats` sub-object is treated as absent for
the five count fields: they all default to 0. -/
theorem normalizeItem_malformed_stats {fields : List (String × JVal)} {s : JVal}
    (hp : containsKey fields "playCount" = false)
    (hs : lookupField fields "stats" = some s) (hso : s.isObj = false)
    (hA : subObjOk fields "author" = true) :
    ∀ r, normalizeItem (.jobj fields) = .ok r →
      r.playCount = .jnum 0 ∧ r.diggCount = .jnum 0 ∧ r.shareCount = .jnum 0 ∧
      r.commentCount = .jnum 0 ∧ r.collectCount = .jnum 0 := by
  have hcs : containsKey fields "stats" = true := containsKey_of_lookup hs
  obtain ⟨af, haf⟩ := isObj_exists (dget_isObj hA (d := .jobj []) rfl)
  have hni : normalizeItem (.jobj fields) = .ok (mkInfo fields s af) :=
    normalizeItem_eq (by rw [classify_stats hp hcs, haf, dget_some hs])
  intro r hr
  rw [hni] at hr
  injection hr with hr
  subst hr
  refine ⟨?_, ?_, ?_, ?_, ?_⟩ <;>
    simpa [mkInfo] using get_value_not_obj hso _ (.jnum 0)

/-- C1 (corrected).  Normalization does NOT tolerate arbitrary record
shapes: it never raises only for mapping records whose `author`,
`authorStats` and `video` values, when present, are themselves mappings
(a non-mapping `author` value makes it raise, because line 201 calls
`.get` on it unguardedly — see the counterexample).  Under that proviso,
normalization always succeeds; a record lacking every recognized key
yields the all-defaults record (numeric fields 0, string fields empty);
and a present but non-mapping `stats` sub-object is treated as absent
(all five count fields default to 0). -/
theorem normalize_never_raises :
    ∀ fields : List (String × JVal),
      subObjOk fields "author" = true →
      subObjOk fields "authorStats" = true →
      subObjOk fields "video" = true →
      (∃ r, normalizeItem (.jobj fields) = .ok r) ∧
      (recognizedKeys.all (fun k => !containsKey fields k) = true →
        normalizeItem (.jobj fields) = .ok defaultInfo) ∧
      (∀ s : JVal, containsKey fields "playCount" = false →
        lookupField fields "stats" = some s → s.isObj = false →
        ∀ r, normalizeItem (.jobj fields) = .ok r →
          r.playCount = .jnum 0 ∧ r.diggCount = .jnum 0 ∧ r.shareCount = .jnum 0 ∧
          r.commentCount = .jnum 0 ∧ r.collectCount = .jnum 0) := by
  intro fields hA hAS hV
  refine ⟨normalizeItem_ok_of_subObjOk hA hAS hV, normalizeItem_defaults, ?_⟩
  intro s hp hs hso
  exact normalizeItem_malformed_stats hp hs hso hA

/-- C1 counterexample.  A flat-stats record whose `author` value is the
string `"bob"` makes normalization raise an `AttributeError` at line 201
(`author_data.get("stats", {})`), contradicting "normalization never
raises ... malformed sub-objects treated as absent". -/
theorem normalize_never_raises_cex :
    normalizeItem (.jobj [("playCount", .jnum 1000), ("author", .jstr "bob")]) =
      .error "AttributeError: object has no attribute get" := rfl

/-- C1 witness. -/
theorem normalize_never_raises_witness :
    normalizeItem (.jobj [("foo", .jstr "bar")]) = .ok defaultInfo :=
  (normalize_never_raises [("foo", .jstr "bar")] rfl rfl rfl).2.1 (by decide)

/-- C2 (corrected).  The field resolver `get_value` returns the default
when the container is not a mapping, and otherwise resolves the *first*
candidate key present in the container: its value when non-null, but the
default when that value is null — later candidate keys are never
consulted, contrary to the claim's "first key present with a non-null
value".  It never raises (it is a total function). -/
theorem get_value_first_present_key :
    ∀ (obj : JVal) (keys : List String) (d : JVal),
      (obj.isObj = false → get_value obj keys d = d) ∧
      (∀ fs, obj = .jobj fs →
        get_value obj keys d =
          match firstHit fs keys with
          | some v => if v.isNull then d else v
          | none => d) := by
  intro obj keys d
  constructor
  · intro h; exact get_value_not_obj h keys d
  · intro fs hobj
    subst hobj
    induction keys with
    | nil => rfl
    | cons k rest ih =>
      cases hl : lookupField fs k with
      | some v => simp [get_value, firstHit, hl]
      | none => simp [get_value, firstHit, hl, ih]

/-- C2 counterexample.  With `"playCount"` present but null and
`"play_count"` present with value 5, the resolver returns the default 0;
the claim requires the later key's value 5. -/
theorem get_value_first_present_key_cex :
    get_value (.jobj [("playCount", .jnull), ("play_count", .jnum 5)])
      ["playCount", "play_count"] (.jnum 0) = .jnum 0 ∧
    get_value (.jobj [("playCount", .jnull), ("play_count", .jnum 5)])
      ["playCount", "play_count"] (.jnum 0) ≠ .jnum 5 := by
  refine ⟨rfl, fun h => ?_⟩
  rw [show get_value (.jobj [("playCount", .jnull), ("play_count", .jnum 5)])
      ["playCount", "play_count"] (.jnum 0) = .jnum 0 from rfl] at h
  exact absurd (JVal.jnum.inj h) (by norm_num)

/-- C2 witness. -/
theorem get_value_first_present_key_witness :
    get_value (.jstr "x") ["playCount"] (.jnum 3) = .jnum 3 ∧
    get_value (.jobj [("viewCount", .jnum 7)]) ["playCount", "viewCount"] (.jnum 0) = .jnum 7 :=
  ⟨(get_value_first_present_key (.jstr "x") ["playCount"] (.jnum 3)).1 rfl,
   (get_value_first_present_key (.jobj [("viewCount", .jnum 7)])
     ["playCount", "viewCount"] (.jnum 0)).2 _ rfl⟩

/-- C3 (corrected).  For an empty table `calculate_metrics` returns the
empty dict (no key is present, modelled as `none`) and mutates nothing;
every downstream read with the 0/empty default therefore observes 0 and
empty lists, but the aggregates are *absent*, not present with value 0 as
the claim states. -/
theorem empty_table_metrics :
    ∀ df : DFrame, df.rows = [] →
      calculate_metrics df = (df, none) ∧
      getTotalVideos (calculate_metrics df).2 = 0 ∧
      getAvgViews (calculate_metrics df).2 = 0 ∧
      getAvgLikes (calculate_metrics df).2 = 0 ∧
      getAvgShares (calculate_metrics df).2 = 0 ∧
      getAvgComments (calculate_metrics df).2 = 0 ∧
      getTotalViews (calculate_metrics df).2 = 0 ∧
      getTotalEngagement (calculate_metrics df).2 = 0 ∧
      getAvgViralRatio (calculate_metrics df).2 = 0 ∧
      getAvgEngagementRate (calculate_metrics df).2 = 0 ∧
      getAvgConversionPotential (calculate_metrics df).2 = 0 ∧
      getTrend (calculate_metrics df).2 = 0 ∧
      getTop3 (calculate_metrics df).2 = [] ∧
      getFlop3 (calculate_metrics df).2 = [] := by
  intro df h
  have hc : calculate_metrics df = (df, none) := by
    unfold calculate_metrics
    rw [if_pos (by simp [h])]
  refine ⟨hc, ?_⟩
  rw [hc]
  exact ⟨rfl, rfl, rfl, rfl, rfl, rfl, rfl, rfl, rfl, rfl, rfl, rfl, rfl⟩

/-- C3 counterexample.  The summary returned for the empty table has no
fields at all (the source returns the empty dict `{}` at line 236), so no
aggregate scalar is "present with value 0". -/
theorem empty_table_metrics_cex :
    ((calculate_metrics ⟨[], none, none, none⟩).2).isSome = false := rfl

/-- C3 witness. -/
theorem empty_table_metrics_witness :
    calculate_metrics ⟨[], none, none, none⟩ = (⟨[], none, none, none⟩, none) ∧
    getTop3 (calculate_metrics ⟨[], none, none, none⟩).2 = [] :=
  ⟨(empty_table_metrics ⟨[], none, none, none⟩ rfl).1,
   (empty_table_metrics ⟨[], none, none, none⟩ rfl).2.2.2.2.2.2.2.2.2.2.2.2.1⟩

/-- C4 (confirmed).  The per-video derived values are guarded: a zero
like count yields viralRatio 0, a zero play count yields engagementRate 0
and conversionPotential 0, and each value either is the guarded 0 or is a
quotient whose denominator is provably nonzero — no division by zero is
ever performed. -/
theorem derived_ratios_guarded :
    ∀ r : VideoRow,
      (r.diggCount = 0 → viralRatio r = 0) ∧
      (r.playCount = 0 → engagementRate r = 0 ∧ conversionPotential r = 0) ∧
      (viralRatio r = 0 ∨ (r.diggCount ≠ 0 ∧ viralRatio r = r.shareCount / r.diggCount)) ∧
      (engagementRate r = 0 ∨
        (r.playCount ≠ 0 ∧
          engagementRate r = (r.diggCount + r.shareCount + r.commentCount) / r.playCount * 100)) ∧
      (conversionPotential r = 0 ∨
        (r.playCount ≠ 0 ∧
          conversionPotential r = (r.shareCount * 2 + r.commentCount) / r.playCount * 100)) := by
  intro r
  refine ⟨?_, ?_, ?_, ?_, ?_⟩
  · intro h; simp [viralRatio, h]
  · intro h; exact ⟨by simp [engagementRate, h], by simp [conversionPotential, h]⟩
  · by_cases h : 0 < r.diggCount
    · exact Or.inr ⟨h.ne', by simp [viralRatio, h]⟩
    · exact Or.inl (by simp [viralRatio, h])
  · by_cases h : 0 < r.playCount
    · exact Or.inr ⟨h.ne', by simp [engagementRate, h]⟩
    · exact Or.inl (by simp [engagementRate, h])
  · by_cases h : 0 < r.playCount
    · exact Or.inr ⟨h.ne', by simp [conversionPotential, h]⟩
    · exact Or.inl (by simp [conversionPotential, h])

/-- C4 witness. -/
theorem derived_ratios_guarded_witness :
    viralRatio (mkRow 0) = 0 ∧ engagementRate (mkRow 0) = 0 ∧ conversionPotential (mkRow 0) = 0 :=
  ⟨(derived_ratios_guarded (mkRow 0)).1 rfl,
   ((derived_ratios_guarded (mkRow 0)).2.1 rfl).1,
   ((derived_ratios_guarded (mkRow 0)).2.1 rfl).2⟩

/-- C8 (corrected).  `calculate_metrics` leaves the rows and all
pre-existing values of the table unchanged, but it does *not* leave the
table itself unchanged: for a nonempty table it assigns the three derived
columns (`viralRatio`, `engagementRate`, `conversionPotential`) onto the
DataFrame it received (lines 249-268); only the empty table is returned
untouched. -/
theorem metrics_mutation_frame :
    ∀ df : DFrame,
      ((calculate_metrics df).1).rows = df.rows ∧
      (df.rows = [] → (calculate_metrics df).1 = df) ∧
      (df.rows ≠ [] →
        (calculate_metrics df).1 =
          { rows := df.rows
            viralRatioCol := some (df.rows.map viralRatio)
            engagementRateCol := some (df.rows.map engagementRate)
            conversionPotentialCol := some (df.rows.map conversionPotential) }) := by
  intro df
  by_cases h : df.rows = []
  · have hc : calculate_metrics df = (df, none) := by
      unfold calculate_metrics
      rw [if_pos (by simp [h])]
    exact ⟨by rw [hc], fun _ => by rw [hc], fun hne => absurd h hne⟩
  · have hc : (calculate_metrics df).1 =
        { rows := df.rows
          viralRatioCol := some (df.rows.map viralRatio)
          engagementRateCol := some (df.rows.map engagementRate)
          conversionPotentialCol := some (df.rows.map conversionPotential) } := by
      unfold calculate_metrics
      rw [if_neg (by simp [h])]
    exact ⟨by rw [hc], fun habs => absurd habs h, fun _ => hc⟩

/-- C8 counterexample.  A one-row table is not returned as received:
the derived columns appear on it. -/
theorem metrics_mutation_frame_cex :
    (calculate_metrics ⟨[mkRow 0], none, none, none⟩).1 ≠ ⟨[mkRow 0], none, none, none⟩ := by
  decide

/-- C8 witness. -/
theorem metrics_mutation_frame_witness :
    (calculate_metrics ⟨[], none, none, none⟩).1 = ⟨[], none, none, none⟩ ∧
    (calculate_metrics ⟨[mkRow 0, mkRow 0], none, none, none⟩).1 =
      ⟨[mkRow 0, mkRow 0], some [0, 0], some [0, 0], some [0, 0]⟩ := by
  refine ⟨(metrics_mutation_frame ⟨[], none, none, none⟩).2.1 rfl, ?_⟩
  have h := (metrics_mutation_frame ⟨[mkRow 0, mkRow 0], none, none, none⟩).2.2 (by decide)
  rw [h]
  decide

/-- Where line 193 actually reads the duration from, once `video_data` is
the record's `video` sub-object (fields `vf`): from `vf`'s own nested
`"video"` entry, if that is a mapping. -/
def durExpected (vf : List (String × JVal)) : JVal :=
  match lookupField vf "video" with
  | some v => if v.isObj then get_value v ["duration"] (.jnum 0) else .jnum 0
  | none => .jnum 0

/-- C9 (corrected).  For a nested-video-shape record (no play-count or
stats key at top level, a mapping under `"video"`), the normalized
duration is NOT the `duration` field of the video sub-object: line 193
evaluates `video_data.get("video")` where `video_data` is already
`item["video"]`, so the duration is read from the video sub-object's own
nested `"video"` entry (when that is a mapping) and is 0 otherwise — in
particular a `duration` stored directly on the video sub-object is
ignored. -/
theorem nested_video_duration :
    ∀ (fields vf : List (String × JVal)),
      containsKey fields "playCount" = false →
      containsKey fields "stats" = false →
      lookupField fields "video" = some (.jobj vf) →
      subObjOk fields "author" = true →
      (normalizeItem (.jobj fields)).map (fun r => r.duration) = .ok (durExpected vf) := by
  intro fields vf hp hs hv hA
  obtain ⟨af, haf⟩ := isObj_exists (dget_isObj hA (d := .jobj []) rfl)
  have hni : normalizeItem (.jobj fields) = .ok (mkInfo vf (dget vf "stats" (.jobj [])) af) :=
    normalizeItem_eq (by rw [classify_video hp hs hv, haf])
  rw [hni]
  simp only [Except.map]
  unfold mkInfo durExpected
  cases hl : lookupField vf "video" with
  | some v => rw [dget_some hl]
  | none => rw [dget_none hl]; rfl

/-- C9 counterexample.  The nested-video record
`{"video": {"duration": 30}}` normalizes with duration 0, not 30: the
duration on the video sub-object itself is never read. -/
theorem nested_video_duration_cex :
    (normalizeItem (.jobj [("video", .jobj [("duration", .jnum 30)])])).map
      (fun r => r.duration) = .ok (.jnum 0) ∧
    (JVal.jnum 0) ≠ .jnum 30 :=
  ⟨rfl, fun h => absurd (JVal.jnum.inj h) (by norm_num)⟩

/-- C9 witness.  A doubly nested `{"video": {"video": {"duration":
44}}}` is where the code actually finds a duration. -/
theorem nested_video_duration_witness :
    (normalizeItem (.jobj [("video", .jobj [("video", .jobj [("duration", .jnum 44)])])])).map
      (fun r => r.duration) = .ok (.jnum 44) :=
  nested_video_duration [("video", .jobj [("video", .jobj [("duration", .jnum 44)])])]
    [("video", .jobj [("duration", .jnum 44)])] rfl rfl rfl rfl

/-- C10 (confirmed).  Candidate keys containing a dot, such as
`"statsV2.playCount"`, are matched only as literal flat key names
(`key in obj` then `obj[key]`, lines 183-184): a record holding its
counts only inside a `"statsV2"` sub-object, with none of the flat
candidate count keys present at top level, normalizes with all five
count fields equal to 0. -/
theorem statsV2_not_nested :
    ∀ (fields sv : List (String × JVal)),
      lookupField fields "statsV2" = some (.jobj sv) →
      containsKey fields "playCount" = false →
      containsKey fields "stats" = false →
      containsKey fields "video" = false →
      countKeys.all (fun k => !containsKey fields k) = true →
      subObjOk fields "author" = true →
      subObjOk fields "authorStats" = true →
      (normalizeItem (.jobj fields)).map
        (fun r => (r.playCount, r.diggCount, r.shareCount, r.commentCount, r.collectCount)) =
        .ok (.jnum 0, .jnum 0, .jnum 0, .jnum 0, .jnum 0) := by
  intro fields sv hsv hp hs hv hall hA hAS
  have hk : ∀ k ∈ countKeys, lookupField fields k = none := by
    intro k hkm
    exact lookup_eq_none_of_containsKey_false (by simpa using List.all_eq_true.mp hall k hkm)
  have hgv : ∀ (keys : List String) (d : JVal), (∀ k ∈ keys, k ∈ countKeys) →
      get_value (.jobj fields) keys d = d :=
    fun keys d hsub => get_value_none keys d (fun k hkm => hk k (hsub k hkm))
  have had : (dget fields "author" (dget fields "authorStats" (.jobj []))).isObj = true :=
    dget_isObj hA (dget_isObj hAS rfl)
  obtain ⟨af, haf⟩ := isObj_exists had
  have hni : normalizeItem (.jobj fields) = .ok (mkInfo fields (.jobj fields) af) :=
    normalizeItem_eq (by rw [classify_fallback hp hs hv, haf])
  rw [hni]
  simp only [Except.map]
  unfold mkInfo
  rw [hgv ["playCount", "play_count", "viewCount", "views", "statsV2.playCount"] (.jnum 0) (by decide)]
  rw [hgv ["diggCount", "digg_count", "likeCount", "likes", "statsV2.diggCount"] (.jnum 0) (by decide)]
  rw [hgv ["shareCount", "share_count", "shares", "statsV2.shareCount"] (.jnum 0) (by decide)]
  rw [hgv ["commentCount", "comment_count", "comments", "statsV2.commentCount"] (.jnum 0) (by decide)]
  rw [hgv ["collectCount", "collect_count", "collects", "statsV2.collectCount"] (.jnum 0) (by decide)]

/-- C10 witness. -/
theorem statsV2_not_nested_witness :
    (normalizeItem (.jobj
        [("statsV2", .jobj [("playCount", .jnum 100), ("diggCount", .jnum 7)])])).map
      (fun r => (r.playCount, r.diggCount, r.shareCount, r.commentCount, r.collectCount)) =
      .ok (.jnum 0, .jnum 0, .jnum 0, .jnum 0, .jnum 0) :=
  statsV2_not_nested [("statsV2", .jobj [("playCount", .jnum 100), ("diggCount", .jnum 7)])]
    [("playCount", .jnum 100), ("diggCount", .jnum 7)] rfl rfl rfl rfl (by decide) rfl rfl

theorem getTop3_eq (df : DFrame) :
    getTop3 (calculate_metrics df).2 = nlargest3 df.rows := by
  by_cases h : df.rows = []
  · unfold calculate_metrics
    rw [if_pos (by simp [h])]
    rw [getTop3, nlargest3, h]
    rfl
  · unfold calculate_metrics
    rw [if_neg (by simp [h])]
    rfl

theorem getFlop3_eq (df : DFrame) :
    getFlop3 (calculate_metrics df).2 = nsmallest3 df.rows := by
  by_cases h : df.rows = []
  · unfold calculate_metrics
    rw [if_pos (by simp [h])]
    rw [getFlop3, nsmallest3, h]
    rfl
  · unfold calculate_metrics
    rw [if_neg (by simp [h])]
    rfl

theorem getTrend_eq (df : DFrame) :
    getTrend (calculate_metrics df).2 = trendOf df.rows := by
  by_cases h : df.rows = []
  · unfold calculate_metrics
    rw [if_pos (by simp [h])]
    rw [getTrend, trendOf, h]
    rfl
  · unfold calculate_metrics
    rw [if_neg (by simp [h])]
    rfl

/-- The spec's worked example: a five-row table with play counts
100, 50, 10, 500, 30 in table order. -/
def ex5df : DFrame :=
  ⟨[mkRow 100, mkRow 50, mkRow 10, mkRow 500, mkRow 30], none, none, none⟩

/-- C6 (confirmed).  `top3` is the (up to) three rows of largest play
count in descending order, `flop3` the (up to) three rows of smallest
play count in ascending order, with stable tie-breaking (equal play-count
classes keep their table order in the underlying sorts — pandas
`nlargest`/`nsmallest` with `keep='first'` take a stable mergesort of the
candidates); a table with fewer than three rows yields all its rows in
both lists; and the spec's five-row example evaluates exactly as stated. -/
theorem topflop_selection :
    (∀ df : DFrame,
      (getTop3 (calculate_metrics df).2).length = min 3 df.rows.length ∧
      (getFlop3 (calculate_metrics df).2).length = min 3 df.rows.length ∧
      List.Sorted playDesc (getTop3 (calculate_metrics df).2) ∧
      List.Sorted playAsc (getFlop3 (calculate_metrics df).2) ∧
      (∀ y ∈ df.rows, y ∉ getTop3 (calculate_metrics df).2 →
        ∀ x ∈ getTop3 (calculate_metrics df).2, y.playCount ≤ x.playCount) ∧
      (∀ y ∈ df.rows, y ∉ getFlop3 (calculate_metrics df).2 →
        ∀ x ∈ getFlop3 (calculate_metrics df).2, x.playCount ≤ y.playCount) ∧
      (∀ c : ℚ,
        (List.insertionSort playDesc df.rows).filter (fun r => decide (r.playCount = c)) =
          df.rows.filter (fun r => decide (r.playCount = c)) ∧
        (List.insertionSort playAsc df.rows).filter (fun r => decide (r.playCount = c)) =
          df.rows.filter (fun r => decide (r.playCount = c))) ∧
      (df.rows.length < 3 →
        (getTop3 (calculate_metrics df).2).Perm df.rows ∧
        (getFlop3 (calculate_metrics df).2).Perm df.rows)) ∧
    ((getTop3 (calculate_metrics ex5df).2).map (fun r => r.playCount) = [500, 100, 50] ∧
     (getFlop3 (calculate_metrics ex5df).2).map (fun r => r.playCount) = [10, 30, 50]) := by
  constructor
  · intro df
    rw [getTop3_eq df, getFlop3_eq df]
    have hlenD := (List.perm_insertionSort playDesc df.rows).length_eq
    have hlenA := (List.perm_insertionSort playAsc df.rows).length_eq
    refine ⟨?_, ?_, ?_, ?_, ?_, ?_, ?_, ?_⟩
    · rw [nlargest3, List.length_take, hlenD]
    · rw [nsmallest3, List.length_take, hlenA]
    · exact (List.sorted_insertionSort playDesc df.rows).sublist (List.take_sublist 3 _)
    · exact (List.sorted_insertionSort playAsc df.rows).sublist (List.take_sublist 3 _)
    · intro y hy hyn x hx
      have hys : y ∈ List.insertionSort playDesc df.rows :=
        (List.mem_insertionSort playDesc).mpr hy
      rw [← List.take_append_drop 3 (List.insertionSort playDesc df.rows)] at hys
      rcases List.mem_append.mp hys with hyt | hyd
      · exact absurd hyt hyn
      · exact sorted_take_drop (List.sorted_insertionSort playDesc df.rows) 3 x hx y hyd
    · intro y hy hyn x hx
      have hys : y ∈ List.insertionSort playAsc df.rows :=
        (List.mem_insertionSort playAsc).mpr hy
      rw [← List.take_append_drop 3 (List.insertionSort playAsc df.rows)] at hys
      rcases List.mem_append.mp hys with hyt | hyd
      · exact absurd hyt hyn
      · exact sorted_take_drop (List.sorted_insertionSort playAsc df.rows) 3 x hx y hyd
    · intro c
      constructor
      · refine filter_insertionSort playDesc _ ?_ df.rows
        intro x y hx hy
        have hx' : x.playCount = c := of_decide_eq_true hx
        have hy' : y.playCount = c := of_decide_eq_true hy
        unfold playDesc
        rw [hx', hy']
      · refine filter_insertionSort playAsc _ ?_ df.rows
        intro x y hx hy
        have hx' : x.playCount = c := of_decide_eq_true hx
        have hy' : y.playCount = c := of_decide_eq_true hy
        unfold playAsc
        rw [hx', hy']
    · intro hlen
      constructor
      · rw [nlargest3, List.take_of_length_le (by omega : (List.insertionSort playDesc df.rows).length ≤ 3)]
        exact List.perm_insertionSort playDesc df.rows
      · rw [nsmallest3, List.take_of_length_le (by omega : (List.insertionSort playAsc df.rows).length ≤ 3)]
        exact List.perm_insertionSort playAsc df.rows
  · constructor
    · decide
    · decide

/-- C6 witness. -/
theorem topflop_selection_witness :
    (mkRow 10).playCount ≤ (mkRow 500).playCount ∧
    (getTop3 (calculate_metrics ⟨[mkRow 1, mkRow 2], none, none, none⟩).2).Perm
      [mkRow 1, mkRow 2] ∧
    (getFlop3 (calculate_metrics ⟨[mkRow 1, mkRow 2], none, none, none⟩).2).Perm
      [mkRow 1, mkRow 2] := by
  refine ⟨?_, ?_, ?_⟩
  · exact (topflop_selection.1 ex5df).2.2.2.2.1 (mkRow 10) (by decide) (by decide)
      (mkRow 500) (by decide)
  · exact ((topflop_selection.1 ⟨[mkRow 1, mkRow 2], none, none, none⟩).2.2.2.2.2.2.2
      (by decide)).1
  · exact ((topflop_selection.1 ⟨[mkRow 1, mkRow 2], none, none, none⟩).2.2.2.2.2.2.2
      (by decide)).2

/-- The spec's worked trend example: play count 100 on the ten most
recent rows and 50 on the ten oldest. -/
def rows20 : List VideoRow :=
  [mkRow 100, mkRow 100, mkRow 100, mkRow 100, mkRow 100,
   mkRow 100, mkRow 100, mkRow 100, mkRow 100, mkRow 100,
   mkRow 50, mkRow 50, mkRow 50, mkRow 50, mkRow 50,
   mkRow 50, mkRow 50, mkRow 50, mkRow 50, mkRow 50]

/-- C7 (confirmed).  For a table of non-negative play counts (the
data model guarantees non-negative counts): trend is 0 below 20 rows;
with at least 20 rows it is 0 when the older-window mean is 0 and
otherwise equals (recent mean − older mean) / older mean × 100, where the
windows are the first and last ten rows. -/
theorem trend_formula :
    ∀ df : DFrame, (∀ r ∈ df.rows, 0 ≤ r.playCount) →
      (df.rows.length < 20 → getTrend (calculate_metrics df).2 = 0) ∧
      (20 ≤ df.rows.length →
        (older10mean df.rows = 0 → getTrend (calculate_metrics df).2 = 0) ∧
        (older10mean df.rows ≠ 0 →
          getTrend (calculate_metrics df).2 =
            (recent10mean df.rows - older10mean df.rows) / older10mean df.rows * 100)) := by
  intro df hnn
  rw [getTrend_eq df]
  constructor
  · intro hlen
    unfold trendOf
    rw [if_neg (by omega)]
  · intro hlen
    constructor
    · intro h0
      unfold trendOf
      rw [if_pos hlen, if_neg (by rw [h0]; exact lt_irrefl 0)]
    · intro hne
      have hnonneg : 0 ≤ older10mean df.rows := by
        unfold older10mean mean
        apply div_nonneg
        · apply List.sum_nonneg
          intro q hq
          obtain ⟨r, hr, rfl⟩ := List.mem_map.mp hq
          exact hnn r (List.mem_of_mem_drop hr)
        · exact Nat.cast_nonneg _
      have hpos : 0 < older10mean df.rows := lt_of_le_of_ne hnonneg (Ne.symm hne)
      unfold trendOf
      rw [if_pos hlen, if_pos hpos]

/-- C7 witness.  The spec's 20-row example evaluates to trend 100. -/
theorem trend_formula_witness :
    getTrend (calculate_metrics ⟨rows20, none, none, none⟩).2 = 100 := by
  have hne : older10mean rows20 ≠ 0 := by
    norm_num [older10mean, mean, rows20, mkRow]
  have h := ((trend_formula ⟨rows20, none, none, none⟩ (by decide)).2 (by decide)).2 hne
  rw [h]
  norm_num [recent10mean, older10mean, mean, rows20, mkRow]

end OFM
